import Mathlib

/-!
Verification of the blogicum blog application (Django, `blog/views.py` and
`blog/models.py`) against its natural-language specification.

The data model and the view logic are shallowly embedded: each persisted
entity becomes a structure, the database a record of lists of rows, and each
view's queryset/dispatch logic a pure function over the database.  Django's
ORM semantics are modelled faithfully: a `filter` on a related field
(`category__is_published=True`) is an SQL join, so a row whose foreign key is
NULL produces no joined row and is excluded; `get_object_or_404` is an
`Option`-valued lookup; `order_by` is a sort by the given key.
-/

namespace Blogicum

/-- A row of the `Category` table (`blog/models.py`, class `Category`):
primary key, unique slug, and the `is_published` flag from `BaseModel`. -/
structure Category where
  id : Nat
  slug : String
  is_published : Bool
deriving Repr, DecidableEq

/-- A row of the `User` table (Django auth user): primary key and username. -/
structure User where
  id : Nat
  username : String
deriving Repr, DecidableEq

/-- A row of the `Post` table (`blog/models.py`, class `Post`): primary key,
author foreign key (non-null), nullable category foreign key (`null=True`,
`on_delete=SET_NULL`), the `is_published` flag, and `pub_date` modelled as an
integer timestamp. -/
structure Post where
  id : Nat
  author : Nat
  category : Option Nat
  is_published : Bool
  pub_date : Int
deriving Repr, DecidableEq

/-- A row of the `Comment` table (`blog/models.py`, class `Comment`): primary
key, post foreign key, author foreign key, `created_at` as an integer
timestamp. -/
structure Comment where
  id : Nat
  post : Nat
  author : Nat
  created_at : Int
deriving Repr, DecidableEq

/-- The database: one list of rows per table. -/
structure DB where
  users : List User
  categories : List Category
  posts : List Post
  comments : List Comment
deriving Repr, DecidableEq

/-- Semantics of the queryset condition `category__is_published=True` in
`filter_posts` (`views.py` line 43): the join against the category table
succeeds and the joined category is published.  A post whose `category`
foreign key is NULL produces no joined row, hence fails the condition. -/
def categoryPublished (db : DB) (p : Post) : Bool :=
  db.categories.any (fun c => p.category == some c.id && c.is_published)

/-- The conjunction of the three public-visibility conditions applied by
`filter_posts` when `filter_flag` is true (`views.py` lines 39-44):
`pub_date__lte=timezone.now()`, `is_published=True`,
`category__is_published=True`. -/
def publicPass (db : DB) (now : Int) (p : Post) : Bool :=
  decide (p.pub_date ≤ now) && p.is_published && categoryPublished db p

/-- Semantics of the annotation `comment_count=Count('comments')`
(`views.py` lines 52-54): the number of comment rows whose `post` foreign key
is this post. -/
def comment_count (db : DB) (p : Post) : Nat :=
  (db.comments.filter (fun c => c.post == p.id)).length

/-- `filter_posts` (`views.py` lines 24-54).  Takes the base queryset
`posts`, the public-visibility flag `filter_flag`, an optional category
constraint and an optional author constraint (`None` models a falsy flag, so
the corresponding `filter` is skipped), plus the current time `now` standing
for `timezone.now()`.  Returns posts annotated with their comment count,
ordered by `Post._meta.ordering[0]`, i.e. `-pub_date` (descending). -/
def filter_posts (db : DB) (posts : List Post) (filter_flag : Bool)
    (category_flag : Option Nat) (author_flag : Option Nat) (now : Int) :
    List (Post × Nat) :=
  let q1 : List Post :=
    if filter_flag then posts.filter (fun p => publicPass db now p) else posts
  let q2 : List Post := match category_flag with
    | some cid => q1.filter (fun p => p.category == some cid)
    | none => q1
  let q3 : List Post := match author_flag with
    | some aid => q2.filter (fun p => p.author == aid)
    | none => q2
  List.insertionSort (fun a b => b.1.pub_date ≤ a.1.pub_date)
    (q3.map (fun p => (p, comment_count db p)))

/-- The outcome of a request, at the granularity the claims need: a redirect
to the login page (`LoginRequiredMixin`), a redirect to a post's detail page
(`redirect('blog:post_detail', ...)` or the comment views' success URL), an
HTTP 404 (`get_object_or_404` failing), or normal processing. -/
inductive Response where
  | redirectLogin : Response
  | redirectPostDetail : Nat → Response
  | notFound : Response
  | ok : Response
deriving Repr, DecidableEq

/-- The viewer of a request: `none` is Django's `AnonymousUser` (compares
unequal to every `User` row), `some u` an authenticated user with id `u`. -/
def Viewer := Option Nat

/-- `IndexListView.get_queryset` (`views.py` lines 69-71):
`filter_posts(Post.objects)` with all defaults, i.e. the public filter over
all posts. -/
def indexListView_get_queryset (db : DB) (now : Int) : List (Post × Nat) :=
  filter_posts db db.posts true none none now

/-- `CategoryListView.get_queryset` (`views.py` lines 121-128):
`get_object_or_404(Category, is_published=True, slug=...)`, then
`filter_posts(category.posts.all())` with the public filter.  `none` models
the 404 outcome. -/
def categoryListView_get_queryset (db : DB) (now : Int) (slug : String) :
    Option (List (Post × Nat)) :=
  match db.categories.find? (fun c => c.is_published && c.slug == slug) with
  | none => none
  | some cat =>
      some (filter_posts db (db.posts.filter (fun p => p.category == some cat.id))
        true none none now)

/-- `ProfileListView.get_queryset` (`views.py` lines 159-169):
`get_object_or_404(User, username=...)`, then
`filter_posts(user.posts.all(), self.request.user != user)` — the public
filter is applied exactly when the viewer is not the profile's owner.
`none` models the 404 outcome. -/
def profileListView_get_queryset (db : DB) (viewer : Option Nat) (now : Int)
    (username : String) : Option (List (Post × Nat)) :=
  match db.users.find? (fun u => u.username == username) with
  | none => none
  | some user =>
      some (filter_posts db (db.posts.filter (fun p => p.author == user.id))
        (viewer != some user.id) none none now)

/-- `PostDetailView.get_object` (`views.py` lines 87-99):
`get_object_or_404(Post, pk=post_id)`; if the viewer is not the author,
refetch with `get_object_or_404(filter_posts(Post.objects), pk=post_id)`.
`none` models the 404 outcome. -/
def postDetailView_get_object (db : DB) (viewer : Option Nat) (now : Int)
    (post_id : Nat) : Option Post :=
  match db.posts.find? (fun p => p.id == post_id) with
  | none => none
  | some post =>
      if viewer != some post.author then
        match (filter_posts db db.posts true none none now).find?
            (fun ap => ap.1.id == post_id) with
        | none => none
        | some ap => some ap.1
      else some post

/-- The fields of `PostForm` (`forms.py`: all fields except `author`)
restricted to those the embedding tracks. -/
structure PostFormData where
  category : Option Nat
  is_published : Bool
  pub_date : Int
deriving Repr, DecidableEq

/-- `PostUpdateDeleteMixin.dispatch` (`views.py` lines 315-323), as resolved
for `PostUpdateView` and `PostDeleteView`.  The mixin precedes
`LoginRequiredMixin` in the base-class list, so its author check runs first:
`get_object_or_404(Post, pk=post_id)`, then a redirect to the post's detail
page whenever `instance.author != request.user` (which holds for every
anonymous viewer); only then does `super().dispatch` reach
`LoginRequiredMixin`. -/
def postUpdateDeleteMixin_dispatch (db : DB) (viewer : Option Nat)
    (post_id : Nat) : Response :=
  match db.posts.find? (fun p => p.id == post_id) with
  | none => Response.notFound
  | some instc =>
      if some instc.author != viewer then Response.redirectPostDetail post_id
      else match viewer with
        | none => Response.redirectLogin
        | some _ => Response.ok

/-- A POST to `PostUpdateView` (`views.py` lines 326-332): the mixin's
dispatch guard, then on success the form replaces the post's editable fields
(`PostForm` excludes only `author`).  Returns the response and the resulting
database state. -/
def postUpdateView_post (db : DB) (viewer : Option Nat) (post_id : Nat)
    (form : PostFormData) : Response × DB :=
  match db.posts.find? (fun p => p.id == post_id) with
  | none => (Response.notFound, db)
  | some instc =>
      if some instc.author != viewer then (Response.redirectPostDetail post_id, db)
      else match viewer with
        | none => (Response.redirectLogin, db)
        | some _ =>
            (Response.ok,
             { db with posts := db.posts.map (fun p =>
                 if p.id == post_id then
                   { p with category := form.category,
                            is_published := form.is_published,
                            pub_date := form.pub_date }
                 else p) })

/-- A POST to `PostDeleteView` (`views.py` lines 335-352): the mixin's
dispatch guard, then on success the post is deleted and its comments cascade
(`on_delete=CASCADE` on `Comment.post`).  Returns the response and the
resulting database state. -/
def postDeleteView_post (db : DB) (viewer : Option Nat) (post_id : Nat) :
    Response × DB :=
  match db.posts.find? (fun p => p.id == post_id) with
  | none => (Response.notFound, db)
  | some instc =>
      if some instc.author != viewer then (Response.redirectPostDetail post_id, db)
      else match viewer with
        | none => (Response.redirectLogin, db)
        | some _ =>
            (Response.ok,
             { db with posts := db.posts.filter (fun p => p.id != post_id),
                       comments := db.comments.filter (fun c => c.post != post_id) })

/-- A POST to `CommentCreateView` (`views.py` lines 225-249):
`LoginRequiredMixin` redirects anonymous viewers to login; `form_valid` sets
the author to the current user and the post to
`get_object_or_404(Post, pk=post_id)` — no visibility filter — then saves and
redirects to the post's detail page. -/
def commentCreateView_post (db : DB) (viewer : Option Nat) (post_id : Nat)
    (new_id : Nat) (created : Int) : Response × DB :=
  match viewer with
  | none => (Response.redirectLogin, db)
  | some u =>
      match db.posts.find? (fun p => p.id == post_id) with
      | none => (Response.notFound, db)
      | some _ =>
          (Response.redirectPostDetail post_id,
           { db with comments := db.comments ++
               [{ id := new_id, post := post_id, author := u, created_at := created }] })

/-- `CommentUpdateDeleteMixin.get_object` (`views.py` lines 262-272):
`get_object_or_404(Comment, pk=comment_id, author=request.user)` — the lookup
is scoped to the current user as author. -/
def commentUpdateDeleteMixin_get_object (db : DB) (u : Nat) (comment_id : Nat) :
    Option Comment :=
  db.comments.find? (fun c => c.id == comment_id && c.author == u)

/-- Dispatch of `CommentUpdateView` / `CommentDeleteView` (`views.py` lines
282-301): the mixin defines no `dispatch`, so `LoginRequiredMixin.dispatch`
runs first and redirects anonymous viewers to login; an authenticated
viewer's object lookup is the author-scoped `get_object`, yielding 404 when
it fails. -/
def commentUpdateDeleteView_dispatch (db : DB) (viewer : Option Nat)
    (comment_id : Nat) : Response :=
  match viewer with
  | none => Response.redirectLogin
  | some u =>
      match commentUpdateDeleteMixin_get_object db u comment_id with
      | none => Response.notFound
      | some _ => Response.ok

/-- Dispatch of `ProfileUpdateView` (`views.py` lines 178-199):
`LoginRequiredMixin` is the first base, so an anonymous viewer is redirected
to login. -/
def profileUpdateView_dispatch (viewer : Option Nat) : Response :=
  match viewer with
  | none => Response.redirectLogin
  | some _ => Response.ok

/-- Dispatch of `PostCreateView` (`views.py` lines 202-222):
`LoginRequiredMixin` is the first base, so an anonymous viewer is redirected
to login. -/
def postCreateView_dispatch (viewer : Option Nat) : Response :=
  match viewer with
  | none => Response.redirectLogin
  | some _ => Response.ok

/-- A published past-dated post without a category (the `Post.category`
foreign key is NULL), by user 1. -/
def postNoCat : Post :=
  { id := 1, author := 1, category := none, is_published := true, pub_date := 0 }

/-- Example database for the null-category edge case: one user, no
categories, one category-less published post. -/
def dbC1 : DB :=
  { users := [{ id := 1, username := "alice" }],
    categories := [],
    posts := [postNoCat],
    comments := [] }

/-- Example database for the anonymous-dispatch claims: one published post in
a published category, authored by user 1. -/
def dbC2 : DB :=
  { users := [{ id := 1, username := "alice" }],
    categories := [{ id := 7, slug := "news", is_published := true }],
    posts := [{ id := 1, author := 1, category := some 7, is_published := true, pub_date := 0 }],
    comments := [] }

/-- An unpublished past-dated post in category 7, by user 1. -/
def postC3 : Post :=
  { id := 1, author := 1, category := some 7, is_published := false, pub_date := 0 }

/-- Example database with one unpublished post in a published category. -/
def dbC3 : DB :=
  { users := [{ id := 1, username := "alice" }],
    categories := [{ id := 7, slug := "news", is_published := true }],
    posts := [postC3],
    comments := [] }

/-- An unpublished, future-dated post in category 7, by user 1. -/
def postC4 : Post :=
  { id := 1, author := 1, category := some 7, is_published := false, pub_date := 100 }

/-- Example database for the own-profile claim: alice has an unpublished,
future-dated post. -/
def dbC4 : DB :=
  { users := [{ id := 1, username := "alice" }],
    categories := [{ id := 7, slug := "news", is_published := true }],
    posts := [postC4],
    comments := [] }

/-- Example database for the detail-access claim: a category-less post, so it
fails the public filter. -/
def dbC5 : DB :=
  { users := [{ id := 1, username := "alice" }, { id := 2, username := "bob" }],
    categories := [],
    posts := [postNoCat],
    comments := [] }

/-- Example database for the ownership-guard claim: user 1 owns post 1. -/
def dbC6 : DB :=
  { users := [{ id := 1, username := "alice" }, { id := 2, username := "bob" }],
    categories := [{ id := 7, slug := "news", is_published := true }],
    posts := [{ id := 1, author := 1, category := some 7, is_published := true, pub_date := 0 }],
    comments := [] }

/-- Example form data submitted in the ownership-guard witness. -/
def formC6 : PostFormData :=
  { category := none, is_published := false, pub_date := 5 }

/-- Example database for the comment-ownership claim: user 1 owns comment 1. -/
def dbC7 : DB :=
  { users := [{ id := 1, username := "alice" }, { id := 2, username := "bob" }],
    categories := [],
    posts := [{ id := 1, author := 1, category := none, is_published := true, pub_date := 0 }],
    comments := [{ id := 1, post := 1, author := 1, created_at := 0 }] }

/-- Example database for the comment-count claim: post 1 has two comments. -/
def dbC9 : DB :=
  { users := [{ id := 1, username := "alice" }],
    categories := [{ id := 7, slug := "news", is_published := true }],
    posts := [{ id := 1, author := 1, category := some 7, is_published := true, pub_date := 0 }],
    comments := [{ id := 1, post := 1, author := 1, created_at := 0 },
                 { id := 2, post := 1, author := 1, created_at := 5 }] }

/-- Example database for the comment-creation claim: an unpublished,
future-dated post in an unpublished category. -/
def dbC10 : DB :=
  { users := [{ id := 1, username := "alice" }, { id := 2, username := "bob" }],
    categories := [{ id := 7, slug := "news", is_published := false }],
    posts := [{ id := 1, author := 1, category := some 7, is_published := false, pub_date := 100 }],
    comments := [] }

/-- The comment list shown on a post's detail page
(`PostDetailView.get_context_data`, `views.py` line 105:
`self.object.comments...`), which carries the default ordering
`('created_at',)` of `Comment.Meta` (`models.py` line 164): ascending by
`created_at`. -/
def postDetailView_comments (db : DB) (post_id : Nat) : List Comment :=
  List.insertionSort (fun a b => a.created_at ≤ b.created_at)
    (db.comments.filter (fun c => c.post == post_id))

/-- Membership characterization of `filter_posts`: an annotated post is in
the result exactly when it is in the base queryset, its annotation is its
comment count, it passes the public filter when `filter_flag` is set, and it
matches the category and author constraints when those are set. -/
theorem mem_filter_posts_iff (db : DB) (posts : List Post) (ff : Bool)
    (cf af : Option Nat) (now : Int) (p : Post) (n : Nat) :
    (p, n) ∈ filter_posts db posts ff cf af now ↔
      p ∈ posts ∧ n = comment_count db p ∧
      (ff = true → publicPass db now p = true) ∧
      (∀ cid, cf = some cid → p.category = some cid) ∧
      (∀ aid, af = some aid → p.author = aid) := by
  cases ff <;> cases cf <;> cases af <;>
    simp [filter_posts, List.mem_insertionSort, List.mem_map, List.mem_filter,
      Prod.mk.injEq, beq_iff_eq] <;> aesop

/-- Unfolding of the public-visibility conditions: published, past-dated, and
joined to a published category row. -/
theorem publicPass_iff (db : DB) (now : Int) (p : Post) :
    publicPass db now p = true ↔
      p.pub_date ≤ now ∧ p.is_published = true ∧
      ∃ c ∈ db.categories, p.category = some c.id ∧ c.is_published = true := by
  simp [publicPass, categoryPublished, List.any_eq_true, Bool.and_eq_true,
    decide_eq_true_eq, beq_iff_eq]
  aesop

/-- A post with a NULL category fails the `category__is_published=True` join
condition, hence the whole public filter. -/
theorem publicPass_category_none (db : DB) (now : Int) (p : Post)
    (h : p.category = none) : publicPass db now p = false := by
  simp [publicPass, categoryPublished, h]

/-- C1, counterexample: in `dbC1`, post `postNoCat` is published with
`pub_date = 0 <= 10` and a null category, yet `filter_posts` with the public
filter returns the empty list — the post is NOT included, contradicting the
claim that a category-less published past-dated post passes the filter. -/
theorem C1_counterexample :
    postNoCat ∈ dbC1.posts ∧ postNoCat.is_published = true ∧
    postNoCat.pub_date ≤ 10 ∧ postNoCat.category = none ∧
    filter_posts dbC1 dbC1.posts true none none 10 = [] := by
  refine ⟨by decide, by decide, by decide, by decide, by decide⟩

/-- C1, amended: a post with a null category always FAILS the public filter:
whenever `filter_flag` is true, no category-less post appears in the result
of `filter_posts`, regardless of its own publication state. -/
theorem C1_null_category_excluded (db : DB) (posts : List Post)
    (cf af : Option Nat) (now : Int) (p : Post) (n : Nat)
    (h : p.category = none) :
    (p, n) ∉ filter_posts db posts true cf af now := by
  intro hmem
  have h2 := ((mem_filter_posts_iff db posts true cf af now p n).mp hmem).2.2.1 rfl
  rw [publicPass_category_none db now p h] at h2
  cases h2

/-- C1, witness for the amended theorem at a concrete input. -/
theorem C1_null_category_excluded_witness :
    postNoCat.category = none ∧
    (postNoCat, 0) ∉ filter_posts dbC1 dbC1.posts true none none 10 :=
  ⟨rfl, C1_null_category_excluded dbC1 dbC1.posts none none 10 postNoCat 0 rfl⟩

/-- C2, counterexample: in `dbC2` an anonymous request to post 1's edit or
delete route is dispatched by `PostUpdateDeleteMixin.dispatch`, which runs
before `LoginRequiredMixin` in the MRO and redirects to the post's DETAIL
page, not to the login page. -/
theorem C2_counterexample :
    postUpdateDeleteMixin_dispatch dbC2 none 1 = Response.redirectPostDetail 1 ∧
    Response.redirectPostDetail 1 ≠ Response.redirectLogin := by
  refine ⟨by decide, by decide⟩

/-- C2, amended: anonymous requests to profile-edit, post-create, and
comment create/edit/delete are redirected to login; but on the post
edit/delete routes the ownership check of `PostUpdateDeleteMixin.dispatch`
runs before the authentication check, so an anonymous request is redirected
to the post's detail page when the post exists, and yields not-found when it
does not. -/
theorem C2_anonymous_dispatch (db : DB) (post_id comment_id new_id : Nat)
    (created : Int) :
    profileUpdateView_dispatch none = Response.redirectLogin ∧
    postCreateView_dispatch none = Response.redirectLogin ∧
    commentUpdateDeleteView_dispatch db none comment_id = Response.redirectLogin ∧
    (commentCreateView_post db none post_id new_id created).1 = Response.redirectLogin ∧
    (∀ p, db.posts.find? (fun q => q.id == post_id) = some p →
      postUpdateDeleteMixin_dispatch db none post_id =
        Response.redirectPostDetail post_id) ∧
    (db.posts.find? (fun q => q.id == post_id) = none →
      postUpdateDeleteMixin_dispatch db none post_id = Response.notFound) := by
  refine ⟨rfl, rfl, rfl, rfl, ?_, ?_⟩
  · intro p hp
    simp [postUpdateDeleteMixin_dispatch, hp]
  · intro hp
    simp [postUpdateDeleteMixin_dispatch, hp]

/-- C2, witness for the amended theorem at a concrete input. -/
theorem C2_anonymous_dispatch_witness :
    postUpdateDeleteMixin_dispatch dbC2 none 1 = Response.redirectPostDetail 1 :=
  (C2_anonymous_dispatch dbC2 1 1 1 0).2.2.2.2.1
    { id := 1, author := 1, category := some 7, is_published := true, pub_date := 0 }
    (by decide)

/-- C3: with the public filter on, `filter_posts` includes exactly the posts
of the base queryset that are published, past-dated, and joined to a
published category row; consequently an unpublished or future-dated post is
absent from the index view's queryset and from every category view's
queryset. -/
theorem C3_public_filter_exact (db : DB) (posts : List Post) (now : Int)
    (p : Post) (n : Nat) :
    ((p, n) ∈ filter_posts db posts true none none now ↔
      p ∈ posts ∧ n = comment_count db p ∧ p.pub_date ≤ now ∧
      p.is_published = true ∧
      ∃ c ∈ db.categories, p.category = some c.id ∧ c.is_published = true) ∧
    (p.is_published = false ∨ now < p.pub_date →
      (p, n) ∉ indexListView_get_queryset db now ∧
      ∀ slug qs, categoryListView_get_queryset db now slug = some qs →
        (p, n) ∉ qs) := by
  constructor
  · rw [mem_filter_posts_iff]
    simp [publicPass_iff]
  · intro h
    have hfail : ¬ (publicPass db now p = true) := by
      intro hp
      rcases (publicPass_iff db now p).mp hp with ⟨hle, hpub, -⟩
      rcases h with h | h
      · rw [hpub] at h; cases h
      · exact absurd hle (not_le.mpr h)
    constructor
    · intro hmem
      exact hfail
        (((mem_filter_posts_iff db db.posts true none none now p n).mp hmem).2.2.1 rfl)
    · intro slug qs hqs hmem
      unfold categoryListView_get_queryset at hqs
      rcases hcf : db.categories.find? (fun c => c.is_published && c.slug == slug) with
        _ | cat
      · rw [hcf] at hqs; cases hqs
      · rw [hcf] at hqs
        injection hqs with hqs
        rw [← hqs] at hmem
        exact hfail
          (((mem_filter_posts_iff db _ true none none now p n).mp hmem).2.2.1 rfl)

/-- C3, witness: in `dbC3` the post is unpublished, and it is absent from the
index queryset. -/
theorem C3_public_filter_exact_witness :
    (postC3, 0) ∉ indexListView_get_queryset dbC3 10 :=
  ((C3_public_filter_exact dbC3 dbC3.posts 10 postC3 0).2 (Or.inl rfl)).1

/-- C4: when the profile's owner views their own profile, the view calls
`filter_posts` with the public filter OFF, so the queryset contains exactly
all of the owner's posts — including unpublished and future-dated ones —
each annotated with its comment count. -/
theorem C4_own_profile_shows_all (db : DB) (now : Int) (username : String)
    (user : User)
    (hfind : db.users.find? (fun u => u.username == username) = some user)
    (p : Post) (n : Nat) :
    ∃ qs, profileListView_get_queryset db (some user.id) now username = some qs ∧
      ((p, n) ∈ qs ↔ p ∈ db.posts ∧ p.author = user.id ∧ n = comment_count db p) := by
  simp only [profileListView_get_queryset, hfind, bne_self_eq_false]
  refine ⟨_, rfl, ?_⟩
  rw [mem_filter_posts_iff]
  simp [List.mem_filter, beq_iff_eq]
  aesop

/-- C4, witness: alice viewing her own profile sees her unpublished,
future-dated post. -/
theorem C4_own_profile_shows_all_witness :
    ∃ qs, profileListView_get_queryset dbC4 (some 1) 0 "alice" = some qs ∧
      (postC4, 0) ∈ qs := by
  obtain ⟨qs, heq, hiff⟩ := C4_own_profile_shows_all dbC4 0 "alice"
    { id := 1, username := "alice" } (by decide) postC4 0
  exact ⟨qs, heq, hiff.mpr (by decide)⟩

/-- C5: detail access policy of `PostDetailView.get_object`, for a database
whose post ids are unique (a primary-key invariant).  When no post has the
requested id the outcome is not-found; when `post` is the post with that id,
the author gets it unconditionally, and any other viewer gets it exactly
when it passes the public filter, not-found otherwise. -/
theorem C5_detail_access (db : DB) (viewer : Option Nat) (now : Int) (pid : Nat)
    (huniq : (db.posts.map Post.id).Nodup) :
    (db.posts.find? (fun p => p.id == pid) = none →
      postDetailView_get_object db viewer now pid = none) ∧
    ∀ post, db.posts.find? (fun p => p.id == pid) = some post →
      postDetailView_get_object db viewer now pid =
        (if viewer == some post.author then some post
         else if publicPass db now post then some post else none) := by
  constructor
  · intro hnone
    simp [postDetailView_get_object, hnone]
  · intro post hfind
    have hpmem : post ∈ db.posts := List.mem_of_find?_eq_some hfind
    have hpid : post.id = pid := by
      simpa [beq_iff_eq] using List.find?_some hfind
    simp only [postDetailView_get_object, hfind]
    rcases hv : (viewer == some post.author) with _ | _
    · have hv2 : (viewer != some post.author) = true := by
        simp [bne, hv]
      simp only [hv2, if_true, if_false]
      rcases hpass : publicPass db now post with _ | _
      · have hnone2 : (filter_posts db db.posts true none none now).find?
            (fun ap => ap.1.id == pid) = none := by
          rw [List.find?_eq_none]
          rintro ⟨q, m⟩ hqmem hqid
          have hq := (mem_filter_posts_iff db db.posts true none none now q m).mp hqmem
          have hqid2 : q.id = pid := by simpa [beq_iff_eq] using hqid
          have : q = post :=
            List.inj_on_of_nodup_map huniq hq.1 hpmem (by rw [hqid2, hpid])
          rw [this] at hq
          rw [hq.2.2.1 rfl] at hpass
          cases hpass
        rw [hnone2]
        simp
      · have hmem : (post, comment_count db post) ∈
            filter_posts db db.posts true none none now :=
          (mem_filter_posts_iff db db.posts true none none now post
            (comment_count db post)).mpr
            ⟨hpmem, rfl, fun _ => hpass, by simp, by simp⟩
        have hsome : ((filter_posts db db.posts true none none now).find?
            (fun ap => ap.1.id == pid)).isSome := by
          rw [List.find?_isSome]
          exact ⟨(post, comment_count db post), hmem, by simp [hpid]⟩
        obtain ⟨ap, hap⟩ := Option.isSome_iff_exists.mp hsome
        rw [hap]
        have hapmem := List.mem_of_find?_eq_some hap
        have hapid : ap.1.id = pid := by
          simpa [beq_iff_eq] using List.find?_some hap
        have hq := (mem_filter_posts_iff db db.posts true none none now ap.1 ap.2).mp
          (by simpa using hapmem)
        have : ap.1 = post :=
          List.inj_on_of_nodup_map huniq hq.1 hpmem (by rw [hapid, hpid])
        simp [this]
    · have hv2 : (viewer != some post.author) = false := by
        simp [bne, hv]
      simp [hv2]

/-- C5, witness: bob (not the author) requests the detail page of alice's
category-less post, which fails the public filter, and gets not-found. -/
theorem C5_detail_access_witness :
    postDetailView_get_object dbC5 (some 2) 10 1 = none := by
  rw [(C5_detail_access dbC5 (some 2) 10 1 (by decide)).2 postNoCat (by decide)]
  decide

/-- C6: an authenticated viewer who is not the author of the post with the
requested id gets redirected to that post's detail page by the edit and
delete operations, and the database is unchanged in both cases. -/
theorem C6_nonowner_post_guard (db : DB) (u : Nat) (pid : Nat) (post : Post)
    (form : PostFormData)
    (hfind : db.posts.find? (fun p => p.id == pid) = some post)
    (hne : post.author ≠ u) :
    postUpdateView_post db (some u) pid form = (Response.redirectPostDetail pid, db) ∧
    postDeleteView_post db (some u) pid = (Response.redirectPostDetail pid, db) ∧
    postUpdateDeleteMixin_dispatch db (some u) pid = Response.redirectPostDetail pid := by
  have hbne : (some post.author != some u) = true := by
    simp [bne_iff_ne, hne]
  refine ⟨?_, ?_, ?_⟩
  · simp [postUpdateView_post, hfind, hbne]
  · simp [postDeleteView_post, hfind, hbne]
  · simp [postUpdateDeleteMixin_dispatch, hfind, hbne]

/-- C6, witness: bob attempting to edit or delete alice's post 1 in `dbC6`. -/
theorem C6_nonowner_post_guard_witness :
    postUpdateView_post dbC6 (some 2) 1 formC6 = (Response.redirectPostDetail 1, dbC6) ∧
    postDeleteView_post dbC6 (some 2) 1 = (Response.redirectPostDetail 1, dbC6) := by
  have h := C6_nonowner_post_guard dbC6 2 1
    { id := 1, author := 1, category := some 7, is_published := true, pub_date := 0 }
    formC6 (by decide) (by decide)
  exact ⟨h.1, h.2.1⟩

/-- C7: an authenticated viewer who authored no comment with the requested
id gets a not-found outcome from the comment edit/delete dispatch, because
the lookup is scoped to `author == currentUser`. -/
theorem C7_nonowner_comment_notfound (db : DB) (u : Nat) (cid : Nat)
    (h : ∀ c ∈ db.comments, c.id = cid → c.author ≠ u) :
    commentUpdateDeleteView_dispatch db (some u) cid = Response.notFound := by
  have hnone : commentUpdateDeleteMixin_get_object db u cid = none := by
    unfold commentUpdateDeleteMixin_get_object
    rw [List.find?_eq_none]
    intro c hc
    simp only [Bool.and_eq_true, beq_iff_eq, not_and]
    exact fun h1 h2 => h c hc h1 h2
  simp [commentUpdateDeleteView_dispatch, hnone]

/-- C7, witness: bob attempting to edit or delete alice's comment 1 in
`dbC7` gets not-found. -/
theorem C7_nonowner_comment_notfound_witness :
    commentUpdateDeleteView_dispatch dbC7 (some 2) 1 = Response.notFound :=
  C7_nonowner_comment_notfound dbC7 2 1 (by decide)

/-- C8: every result of `filter_posts` is ordered non-increasing by
`pub_date` (the declared `-pub_date` ordering), and the comment list of any
post's detail page is ordered non-decreasing by `created_at` (the declared
`created_at` ordering of `Comment.Meta`). -/
theorem C8_ordering (db : DB) (posts : List Post) (ff : Bool)
    (cf af : Option Nat) (now : Int) (pid : Nat) :
    (filter_posts db posts ff cf af now).Pairwise
      (fun a b => b.1.pub_date ≤ a.1.pub_date) ∧
    (postDetailView_comments db pid).Pairwise
      (fun a b => a.created_at ≤ b.created_at) := by
  constructor
  · haveI : IsTotal (Post × Nat) (fun a b => b.1.pub_date ≤ a.1.pub_date) :=
      ⟨fun a b => le_total b.1.pub_date a.1.pub_date⟩
    haveI : IsTrans (Post × Nat) (fun a b => b.1.pub_date ≤ a.1.pub_date) :=
      ⟨fun _ _ _ h1 h2 => le_trans h2 h1⟩
    exact List.sorted_insertionSort _ _
  · haveI : IsTotal Comment (fun a b => a.created_at ≤ b.created_at) :=
      ⟨fun a b => le_total a.created_at b.created_at⟩
    haveI : IsTrans Comment (fun a b => a.created_at ≤ b.created_at) :=
      ⟨fun _ _ _ h1 h2 => le_trans h1 h2⟩
    exact List.sorted_insertionSort _ _

/-- C9: the `comment_count` annotation of every entry of a `filter_posts`
result equals the exact number of comment rows whose `post` foreign key is
that post. -/
theorem C9_comment_count_exact (db : DB) (posts : List Post) (ff : Bool)
    (cf af : Option Nat) (now : Int) (p : Post) (n : Nat)
    (h : (p, n) ∈ filter_posts db posts ff cf af now) :
    n = (db.comments.filter (fun c => c.post == p.id)).length :=
  ((mem_filter_posts_iff db posts ff cf af now p n).mp h).2.1

/-- C9, witness: in `dbC9` the only post carries annotation 2, the exact
number of its comment rows. -/
theorem C9_comment_count_exact_witness :
    2 = (dbC9.comments.filter (fun c => c.post == 1)).length := by
  have h := C9_comment_count_exact dbC9 dbC9.posts true none none 10
    { id := 1, author := 1, category := some 7, is_published := true, pub_date := 0 }
    2 (by decide)
  simpa using h

/-- C10: for every authenticated user, the comment-creation operation
yields not-found exactly when no post has the requested id; when the post
exists — with no visibility condition whatever on its publication state,
date, or category — it appends a comment attached to that post and that
user and redirects to the post's detail page. -/
theorem C10_comment_create (db : DB) (u : Nat) (pid new_id : Nat) (created : Int) :
    (db.posts.find? (fun p => p.id == pid) = none →
      commentCreateView_post db (some u) pid new_id created = (Response.notFound, db)) ∧
    ∀ post, db.posts.find? (fun p => p.id == pid) = some post →
      commentCreateView_post db (some u) pid new_id created =
        (Response.redirectPostDetail pid,
         { db with comments := db.comments ++
             [{ id := new_id, post := pid, author := u, created_at := created }] }) := by
  constructor
  · intro hnone
    simp [commentCreateView_post, hnone]
  · intro post hfind
    simp [commentCreateView_post, hfind]

/-- C10, witness: bob comments on alice's unpublished, future-dated post in
an unpublished category; the comment is created and attached. -/
theorem C10_comment_create_witness :
    commentCreateView_post dbC10 (some 2) 1 1 50 =
      (Response.redirectPostDetail 1,
       { dbC10 with comments := [{ id := 1, post := 1, author := 2, created_at := 50 }] }) := by
  rw [(C10_comment_create dbC10 2 1 1 50).2
    { id := 1, author := 1, category := some 7, is_published := false, pub_date := 100 }
    (by decide)]
  decide

end Blogicum
